import Mathlib

/-!
Shallow embedding of the scoring core of the dreyfus repository
(src/impact_analysis.py and src/sentiment_analysis.py).

Numeric conventions: Python floats are modelled as rationals, so 0.4 is 2/5,
0.3 is 3/10 and 0.6 is 3/5.  A raised Python exception is modelled as an
error value of Except or as none in Option.
-/

namespace Dreyfus

/-- Priority mapping shared by both _calculate_impact definitions
(impact_analysis.py lines 101-105 and 183-187): a dict lookup
with default 1, so any unknown string yields 1 and no exception. -/
def priority_score (p : String) : ℕ :=
  if p = "High" then 3
  else if p = "Medium" then 2
  else if p = "Low" then 1
  else 1

/-- Story point normalization from impact_analysis.py lines 107-108 (and
inlined at line 192): story_points / 34, with no clamping. -/
def story_points_score (sp : ℕ) : ℚ := (sp : ℚ) / 34

/-- theme_stats.get(theme, 0): dictionary lookup with default 0
(impact_analysis.py line 76). -/
def theme_stats_get (stats : List (String × ℚ)) (t : String) : ℚ :=
  match stats.find? (fun q => q.1 == t) with
  | some q => q.2
  | none => 0

/-- max(theme_stats.values()) if theme_stats else 1
(impact_analysis.py line 79). -/
def max_possible_score (stats : List (String × ℚ)) : ℚ :=
  match stats with
  | [] => 1
  | q :: qs => qs.foldl (fun m p => max m p.2) q.2

/-- The body of _calculate_theme_score once the matched themes of the item
are known (impact_analysis.py lines 76-82): sum the stats of the matched
themes, then divide by max_possible_score when it is positive, else 0.
The matched themes are a parameter because the call producing them
(line 73) targets a missing attribute; see calculate_theme_score_run. -/
def calculate_theme_score (item_themes : List String)
    (stats : List (String × ℚ)) : ℚ :=
  let theme_score := (item_themes.map (theme_stats_get stats)).sum
  if 0 < max_possible_score stats then theme_score / max_possible_score stats
  else 0

/-- The static theme lexicon of TextAnalyzer._extract_themes
(sentiment_analysis.py lines 79-86). -/
def common_themes : List (String × List String) :=
  [("email", ["email", "gmail", "outlook"]),
   ("mobile", ["mobile", "app", "phone"]),
   ("performance", ["speed", "slow", "fast", "performance"]),
   ("ui", ["interface", "ui", "design", "layout"]),
   ("integration", ["integration", "sync", "connect"]),
   ("support", ["support", "help", "assistance"])]

/-- Python str.lower on the character list of a string (ASCII case fold,
which covers every keyword of the lexicon). -/
def lower_chars (s : String) : List Char := s.data.map Char.toLower

/-- A theme matches a text iff some of its keywords is a substring of the
lowercased text (sentiment_analysis.py lines 93-96). -/
def theme_matches (text : String) (keywords : List String) : Bool :=
  keywords.any (fun kw => decide (kw.data <:+: lower_chars text))

/-- Occurrence count of a theme over a list of texts
(sentiment_analysis.py lines 88-96). -/
def theme_count (texts : List String) (keywords : List String) : ℕ :=
  (texts.filter (fun text => theme_matches text keywords)).length

/-- TextAnalyzer._extract_themes (sentiment_analysis.py lines 76-99): the
themes whose occurrence count over the texts is positive, in lexicon order. -/
def extract_themes (texts : List String) : List String :=
  (common_themes.filter
    (fun tk => decide (0 < theme_count texts tk.2))).map (fun tk => tk.1)

/-- The method names bound in class TextAnalyzer (sentiment_analysis.py):
it defines the private _extract_themes but no extract_themes. -/
def text_analyzer_methods : List String :=
  ["__init__", "analyze_all", "_prepare_csat_text", "_prepare_ticket_text",
   "_analyze_sentiment", "_extract_themes"]

/-- _calculate_theme_score as executed (impact_analysis.py lines 69-82):
line 73 resolves the attribute extract_themes on the TextAnalyzer instance,
and a name absent from the class raises AttributeError, modelled as an
error value.  The ok branch, never reached, applies the lexicon to the item
text and normalizes as in lines 76-82. -/
def calculate_theme_score_run (item_text : String)
    (stats : List (String × ℚ)) : Except String ℚ :=
  if text_analyzer_methods.contains "extract_themes" then
    Except.ok (calculate_theme_score (extract_themes [item_text]) stats)
  else
    Except.error "AttributeError"

/-- Names for the two def statements of _calculate_impact in class
ImpactAnalyzer: themed is the first definition (impact_analysis.py lines
84-134), simple the second (lines 161-205). -/
inductive ImpactFormula where
  | themed
  | simple
deriving DecidableEq

/-- Composite score of the first _calculate_impact definition (lines
113-118): (priority_score/3)*0.4 + story_points_score*0.3 + theme_score*0.3. -/
def composite_score_themed (p : String) (sp : ℕ) (theme_score : ℚ) : ℚ :=
  (priority_score p : ℚ) / 3 * (2/5) + story_points_score sp * (3/10) +
    theme_score * (3/10)

/-- Composite score of the second _calculate_impact definition (lines
190-193): priority_score*0.6 + story_points/34*0.4, with the raw 1..3
priority rank and no theme term. -/
def composite_score_simple (p : String) (sp : ℕ) : ℚ :=
  (priority_score p : ℚ) * (3/5) + (sp : ℚ) / 34 * (2/5)

/-- The statements binding the name _calculate_impact while Python executes
the class body of ImpactAnalyzer, in source order: the first definition at
line 84 and the second at line 161 (line 136 binds the distinct name
_calculate_impact_old and is irrelevant to this lookup). -/
def impact_method_bindings : List (String × ImpactFormula) :=
  [("_calculate_impact", ImpactFormula.themed),
   ("_calculate_impact", ImpactFormula.simple)]

/-- Python class-dictionary semantics: each def statement rebinds its name,
so attribute resolution returns the last binding. -/
def resolve_method (name : String) : Option ImpactFormula :=
  impact_method_bindings.foldl
    (fun acc b => if b.1 == name then some b.2 else acc) none

/-- The composite score computed by the _calculate_impact that
analyze_impact actually reaches, obtained through resolve_method. -/
def executed_composite_score (p : String) (sp : ℕ) (theme_score : ℚ) : ℚ :=
  match resolve_method "_calculate_impact" with
  | some ImpactFormula.themed => composite_score_themed p sp theme_score
  | some ImpactFormula.simple => composite_score_simple p sp
  | none => 0

/-- A row of the impact table restricted to the fields the ranking uses. -/
structure ScoreRow where
  ticket_id : ℕ
  composite_score : ℚ
deriving DecidableEq

/-- Descending comparison on composite_score, the single sort key passed to
impact_df.sort_values at impact_analysis.py lines 128 and 199. -/
def score_ge (a b : ScoreRow) : Prop :=
  b.composite_score ≤ a.composite_score

instance : DecidableRel score_ge := fun a b =>
  inferInstanceAs (Decidable (b.composite_score ≤ a.composite_score))

instance : IsTotal ScoreRow score_ge :=
  ⟨fun a b => le_total b.composite_score a.composite_score⟩

instance : IsTrans ScoreRow score_ge :=
  ⟨fun _ _ _ hab hbc => le_trans hbc hab⟩

/-- sort_values on the single key composite_score with ascending=False,
embedded as a stable sort: tied rows keep their input order and no
secondary key is applied. -/
def sort_by_composite_desc (rows : List ScoreRow) : List ScoreRow :=
  List.insertionSort score_ge rows

/-- A development (backlog) item restricted to the fields scoring uses. -/
structure DevItem where
  ticket_id : ℕ
  priority : String
  story_points : ℕ
deriving DecidableEq

/-- The executed per-item row construction of the second _calculate_impact
(lines 174-195): theme statistics play no part. -/
def score_item (it : DevItem) : ScoreRow :=
  { ticket_id := it.ticket_id,
    composite_score := composite_score_simple it.priority it.story_points }

/-- The executed ranking (lines 174-199): build one row per item in
iteration order, then sort by composite score descending. -/
def rank_items (items : List DevItem) : List ScoreRow :=
  sort_by_composite_desc (items.map score_item)

/-- Polarity labels of the external classification pipeline. -/
inductive SentimentLabel where
  | positive
  | negative
deriving DecidableEq

/-- Python truthiness of text.strip(): true iff the string has at least one
non-whitespace character. -/
def has_visible_char (s : String) : Bool :=
  s.data.any (fun c => !c.isWhitespace)

/-- Python slicing text[:n]: the first n characters. -/
def take_chars (s : String) (n : ℕ) : String := { data := s.data.take n }

/-- The for-loop of _analyze_sentiment (sentiment_analysis.py lines 66-70)
with the classifier as a parameter: texts whose strip() is empty are
skipped, others are truncated to 512 characters and classified; the
classifier returning none models the underlying pipeline raising on that
text, which aborts the loop. -/
def analyze_sentiment_loop (classifier : String → Option SentimentLabel) :
    List String → Option (List SentimentLabel)
  | [] => some []
  | text :: rest =>
    if has_visible_char text then
      match classifier (take_chars text 512) with
      | some s => (analyze_sentiment_loop classifier rest).map (fun rs => s :: rs)
      | none => none
    else analyze_sentiment_loop classifier rest

/-- TextAnalyzer._analyze_sentiment (sentiment_analysis.py lines 60-74):
empty input short-circuits to []; the try block wraps the whole loop, so an
exception anywhere inside it is caught and the whole call returns []. -/
def analyze_sentiment (classifier : String → Option SentimentLabel)
    (texts : List String) : List SentimentLabel :=
  if texts = [] then []
  else
    match analyze_sentiment_loop classifier texts with
    | some results => results
    | none => []

/-- A concrete classifier that raises exactly on the text bad. -/
def stub_classifier (s : String) : Option SentimentLabel :=
  if s = "bad" then none else some SentimentLabel.positive

/-- The per-theme entry of sentiment_results consumed by
_calculate_theme_frequency: the occurrence records and their sentiments. -/
structure ThemeData where
  occurrences : List String
  sentiments : List ℚ
deriving DecidableEq

/-- ImpactAnalyzer._calculate_theme_frequency (impact_analysis.py lines
50-67).  num_tickets is len(tickets_df), the only denominator the code
uses; iterating a non-empty themes mapping divides by it, so num_tickets =
0 with themes present raises ZeroDivisionError.  np.mean(sentiments) < 0 is
the same test as sum < 0 for a non-empty list, and for an empty list the
NaN comparison is false, as is sum < 0. -/
def calculate_theme_frequency (num_tickets : ℕ)
    (themes : List (String × ThemeData)) :
    Except String (List (String × ℚ)) :=
  if num_tickets = 0 ∧ themes ≠ [] then Except.error "ZeroDivisionError"
  else Except.ok (themes.map (fun td =>
    let frequency : ℚ := (td.2.occurrences.length : ℚ) / (num_tickets : ℚ)
    let sentiment_weight : ℚ := if td.2.sentiments.sum < 0 then 2 else 1
    (td.1, frequency * sentiment_weight)))

set_option maxRecDepth 8000

/-- The dict lookup of the priority always yields 3, 2 or 1. -/
theorem priority_score_cases (p : String) :
    priority_score p = 3 ∨ priority_score p = 2 ∨ priority_score p = 1 := by
  unfold priority_score
  split_ifs <;> simp

/-- The seed of the running maximum is bounded by its foldl, and so is
every listed value. -/
theorem foldl_max_bounds (l : List (String × ℚ)) (a : ℚ) :
    a ≤ l.foldl (fun m q => max m q.2) a ∧
    ∀ q ∈ l, q.2 ≤ l.foldl (fun m q => max m q.2) a := by
  induction l generalizing a with
  | nil => simp
  | cons hd tl ih =>
    simp only [List.foldl_cons]
    refine ⟨le_trans (le_max_left a hd.2) (ih (max a hd.2)).1, ?_⟩
    intro q hq
    rcases List.mem_cons.mp hq with rfl | hq2
    · exact le_trans (le_max_right a q.2) (ih (max a q.2)).1
    · exact (ih (max a hd.2)).2 q hq2

/-- Every stat value is at most max_possible_score. -/
theorem stat_le_max_possible (stats : List (String × ℚ)) (q : String × ℚ)
    (hq : q ∈ stats) : q.2 ≤ max_possible_score stats := by
  cases stats with
  | nil => cases hq
  | cons hd tl =>
    rcases List.mem_cons.mp hq with rfl | hq2
    · exact (foldl_max_bounds tl q.2).1
    · exact (foldl_max_bounds tl hd.2).2 q hq2

/-- The dict lookup with default 0 is nonnegative over nonnegative stats. -/
theorem theme_stats_get_nonneg (stats : List (String × ℚ)) (t : String)
    (h : ∀ q ∈ stats, 0 ≤ q.2) : 0 ≤ theme_stats_get stats t := by
  cases hfind : stats.find? (fun q => q.1 == t) with
  | none => simp [theme_stats_get, hfind]
  | some q =>
    have hm := h q (List.mem_of_find?_eq_some hfind)
    simp [theme_stats_get, hfind, hm]

/-- The dict lookup with default 0 is bounded by a nonnegative maximum. -/
theorem theme_stats_get_le_max (stats : List (String × ℚ)) (t : String)
    (hmax : 0 ≤ max_possible_score stats) :
    theme_stats_get stats t ≤ max_possible_score stats := by
  cases hfind : stats.find? (fun q => q.1 == t) with
  | none => simp [theme_stats_get, hfind, hmax]
  | some q =>
    have hm := stat_le_max_possible stats q (List.mem_of_find?_eq_some hfind)
    simp [theme_stats_get, hfind, hm]

/-- If some text of the list is non-blank and the classifier raises on its
truncation, the whole classification loop aborts with none. -/
theorem analyze_sentiment_loop_none (classifier : String → Option SentimentLabel)
    (texts : List String) (t : String) (hmem : t ∈ texts)
    (hvis : has_visible_char t = true)
    (hfail : classifier (take_chars t 512) = none) :
    analyze_sentiment_loop classifier texts = none := by
  induction texts with
  | nil => cases hmem
  | cons hd rest ih =>
    rcases List.mem_cons.mp hmem with rfl | hmem2
    · simp only [analyze_sentiment_loop]
      rw [if_pos hvis, hfail]
    · simp only [analyze_sentiment_loop]
      by_cases hv : has_visible_char hd
      · rw [if_pos hv]
        cases hcl : classifier (take_chars hd 512) with
        | none => rfl
        | some s => rw [ih hmem2]; rfl
      · rw [if_neg hv]
        exact ih hmem2

/-- C8: priority handling is total: the dict lookup maps High to 3, Medium
to 2, Low to 1 and any other string to the default 1, whose normalized
component is 1/3; being a total function of the string, it raises no
exception. -/
theorem c8_priority_rank_total :
    priority_score "High" = 3 ∧ priority_score "Medium" = 2 ∧
    priority_score "Low" = 1 ∧
    ∀ p : String, p ∉ (["High", "Medium", "Low"] : List String) →
      priority_score p = 1 ∧ (priority_score p : ℚ) / 3 = 1 / 3 := by
  refine ⟨by decide, by decide, by decide, fun p hp => ?_⟩
  simp only [List.mem_cons, List.not_mem_nil, or_false, not_or] at hp
  obtain ⟨h1, h2, h3⟩ := hp
  have hps : priority_score p = 1 := by
    unfold priority_score
    rw [if_neg h1, if_neg h2, if_neg h3]
  exact ⟨hps, by rw [hps]; norm_num⟩

/-- Witness for c8_priority_rank_total at the concrete unknown priority
string Urgent. -/
theorem c8_priority_rank_total_witness :
    ("Urgent" : String) ∉ (["High", "Medium", "Low"] : List String) ∧
    priority_score "Urgent" = 1 ∧ (priority_score "Urgent" : ℚ) / 3 = 1 / 3 :=
  ⟨by decide, (c8_priority_rank_total.2.2.2 "Urgent" (by decide)).1,
    (c8_priority_rank_total.2.2.2 "Urgent" (by decide)).2⟩

/-- C9: in class ImpactAnalyzer the name _calculate_impact is bound twice
and attribute resolution returns the second binding, so the calculation
reachable from analyze_impact is the priority+effort-only formula
priority_score*0.6 + story_points/34*0.4; the two definitions disagree on
a concrete backlog item, and the themed first binding is never the
resolved one. -/
theorem c9_second_definition_wins :
    resolve_method "_calculate_impact" = some ImpactFormula.simple ∧
    resolve_method "_calculate_impact" ≠ some ImpactFormula.themed ∧
    (∀ p sp t, executed_composite_score p sp t = composite_score_simple p sp) ∧
    composite_score_themed "High" 34 0 ≠ composite_score_simple "High" 34 := by
  refine ⟨by decide, by decide, fun p sp t => rfl, ?_⟩
  norm_num [composite_score_themed, composite_score_simple, story_points_score,
    priority_score]

/-- C1: evaluation at the failing input: for a High priority item with 34
story points the executed impact calculation returns 11/5 = 2.2, while the
formula the claim states (kept verbatim in the shadowed first definition)
returns 7/10 there even with theme component 0; the two disagree. -/
theorem c1_executed_score_at_high_34 :
    executed_composite_score "High" 34 0 = 11 / 5 ∧
    composite_score_themed "High" 34 0 = 7 / 10 ∧
    executed_composite_score "High" 34 0 ≠ composite_score_themed "High" 34 0 := by
  norm_num [executed_composite_score, resolve_method, impact_method_bindings,
    composite_score_themed, composite_score_simple, story_points_score,
    priority_score]

/-- C2: counterexample: the executed impact calculation puts the High
priority, 34 point backlog item at 11/5, which is outside the unit
interval, refuting the claim that every executed composite score lies in
[0,1]. -/
theorem c2_composite_not_in_unit_interval :
    ¬(executed_composite_score "High" 34 0 ≤ 1) := by
  norm_num [executed_composite_score, resolve_method, impact_method_bindings,
    composite_score_simple, priority_score]

/-- C2 amended: the executed composite score equals
priority_score*0.6 + story_points/34*0.4; it is always nonnegative, and it
lies in the unit interval exactly when the priority maps to rank 1 (Low or
unknown) and story_points is at most 34. -/
theorem c2_executed_composite_bounds (p : String) (sp : ℕ) (t : ℚ) :
    0 ≤ executed_composite_score p sp t ∧
    (executed_composite_score p sp t ≤ 1 ↔ priority_score p = 1 ∧ sp ≤ 34) := by
  have hexec : executed_composite_score p sp t = composite_score_simple p sp := rfl
  rw [hexec, composite_score_simple]
  have hsp0 : (0 : ℚ) ≤ (sp : ℚ) := Nat.cast_nonneg sp
  rcases priority_score_cases p with h | h | h <;> rw [h] <;> push_cast
  · refine ⟨by nlinarith, ?_⟩
    constructor
    · intro hle
      exfalso
      nlinarith
    · rintro ⟨h31, -⟩
      exact absurd h31 (by norm_num)
  · refine ⟨by nlinarith, ?_⟩
    constructor
    · intro hle
      exfalso
      nlinarith
    · rintro ⟨h21, -⟩
      exact absurd h21 (by norm_num)
  · refine ⟨by nlinarith, ?_⟩
    constructor
    · intro hle
      have hq : (sp : ℚ) ≤ 34 := by nlinarith
      exact ⟨trivial, by exact_mod_cast hq⟩
    · rintro ⟨-, hsp34⟩
      have hq : (sp : ℚ) ≤ 34 := by exact_mod_cast hsp34
      nlinarith

/-- C3: counterexample: two backlog items with identical executed composite
scores and identifiers 1 and 2, presented in the two iteration orders,
produce two different output orderings; the output with identifier 2 first
violates the claimed ascending-identifier tie-break, so the ranking is not
iteration-order independent. -/
theorem c3_tie_order_depends_on_input :
    rank_items [⟨2, "High", 34⟩, ⟨1, "High", 34⟩] =
      [⟨2, 11 / 5⟩, ⟨1, 11 / 5⟩] ∧
    rank_items [⟨1, "High", 34⟩, ⟨2, "High", 34⟩] =
      [⟨1, 11 / 5⟩, ⟨2, 11 / 5⟩] ∧
    ([⟨2, 11 / 5⟩, ⟨1, 11 / 5⟩] : List ScoreRow) ≠
      [⟨1, 11 / 5⟩, ⟨2, 11 / 5⟩] := by
  refine ⟨?_, ?_, by simp⟩ <;>
    norm_num [rank_items, score_item, sort_by_composite_desc, List.insertionSort,
      List.orderedInsert, score_ge, composite_score_simple, priority_score]

/-- C3 amended: the executed ranking sorts the rows by composite score
descending (the output is sorted for score_ge and is a permutation of the
per-item rows), with no identifier tie-break: tied rows keep their input
order, so the output ordering depends on the input iteration order. -/
theorem c3_sort_desc_perm (items : List DevItem) :
    (rank_items items).Sorted score_ge ∧
    (rank_items items).Perm (items.map score_item) :=
  ⟨List.sorted_insertionSort score_ge (items.map score_item),
    List.perm_insertionSort score_ge (items.map score_item)⟩

/-- C4: counterexample: effort normalization has no clamp: 34 story points
give effort component 1, but 100 story points give 50/17, which is not 1
and exceeds 1, refuting the claimed min(story_points, 34)/34. -/
theorem c4_no_effort_clamp :
    story_points_score 34 = 1 ∧ story_points_score 100 ≠ 1 ∧
    1 < story_points_score 100 := by
  norm_num [story_points_score]

/-- C4 amended: the effort component is story_points/34 with no clamping:
it is at most 1 exactly when story_points is at most 34; 34 points give 1
and 100 points give 50/17. -/
theorem c4_story_points_score_props :
    (∀ sp : ℕ, story_points_score sp ≤ 1 ↔ sp ≤ 34) ∧
    story_points_score 34 = 1 ∧ story_points_score 100 = 50 / 17 := by
  refine ⟨fun sp => ?_, by norm_num [story_points_score],
    by norm_num [story_points_score]⟩
  rw [story_points_score, div_le_one (by norm_num : (0 : ℚ) < 34)]
  exact_mod_cast Iff.rfl

/-- C5: counterexample: with the classifier raising exactly on the text
bad, analyzing the three texts good, bad, nice returns no results at all,
while the two non-failing texts alone produce two results: the partial
results are discarded, refuting the claim that every other text of the
list still yields a result. -/
theorem c5_batch_results_discarded :
    analyze_sentiment stub_classifier ["good", "bad", "nice"] = [] ∧
    analyze_sentiment stub_classifier ["good", "nice"] =
      [SentimentLabel.positive, SentimentLabel.positive] :=
  ⟨by decide, by decide⟩

/-- C5 amended: when the classifier raises on one non-blank text of the
list, _analyze_sentiment catches the exception outside the loop and
returns the empty list: the run continues past the failure, but every
result for that list is discarded, not only the failing text's. -/
theorem c5_failure_empties_batch (classifier : String → Option SentimentLabel)
    (texts : List String) (t : String) (hmem : t ∈ texts)
    (hvis : has_visible_char t = true)
    (hfail : classifier (take_chars t 512) = none) :
    analyze_sentiment classifier texts = [] := by
  have hne : texts ≠ [] := by
    rintro rfl
    cases hmem
  rw [analyze_sentiment, if_neg hne,
    analyze_sentiment_loop_none classifier texts t hmem hvis hfail]

/-- Witness for c5_failure_empties_batch: the classifier raising on the
text bad empties the whole batch of three texts. -/
theorem c5_failure_empties_batch_witness :
    ("bad" : String) ∈ (["good", "bad", "nice"] : List String) ∧
    has_visible_char "bad" = true ∧
    stub_classifier (take_chars "bad" 512) = none ∧
    analyze_sentiment stub_classifier ["good", "bad", "nice"] = [] :=
  ⟨by decide, by decide, by decide,
    c5_failure_empties_batch stub_classifier ["good", "bad", "nice"] "bad"
      (by decide) (by decide) (by decide)⟩

/-- C6: counterexample: a backlog item whose text matches both the email
and the mobile theme, each carrying stat 1, gets theme component 2: the
sum of two stats divided by the single maximal stat exceeds 1, refuting
the claimed [0,1] bound for items matching more than one theme. -/
theorem c6_multi_theme_exceeds_one :
    calculate_theme_score (extract_themes ["email app problem"])
      [("email", 1), ("mobile", 1)] = 2 ∧
    ¬(calculate_theme_score (extract_themes ["email app problem"])
      [("email", 1), ("mobile", 1)] ≤ 1) := by
  have h : extract_themes ["email app problem"] = ["email", "mobile"] := by decide
  rw [h]
  norm_num [calculate_theme_score, theme_stats_get, max_possible_score,
    List.find?,
    (by decide : ("email" == "mobile") = false),
    (by decide : ("mobile" == "mobile") = true),
    (by decide : ("email" == "email") = true)]

/-- C6 amended: the theme component follows the claimed normalization (sum
of matched stats over the maximum when positive, else 0) and lies in [0,1]
whenever the item matches at most one theme and the stats are nonnegative;
with several matched themes it can exceed 1. -/
theorem c6_single_theme_bounded (stats : List (String × ℚ)) (t : String)
    (h : ∀ q ∈ stats, 0 ≤ q.2) :
    0 ≤ calculate_theme_score [t] stats ∧
    calculate_theme_score [t] stats ≤ 1 := by
  simp only [calculate_theme_score, List.map_cons, List.map_nil,
    List.sum_cons, List.sum_nil, add_zero]
  by_cases hm : 0 < max_possible_score stats
  · rw [if_pos hm]
    refine ⟨div_nonneg (theme_stats_get_nonneg stats t h) (le_of_lt hm), ?_⟩
    rw [div_le_one hm]
    exact theme_stats_get_le_max stats t (le_of_lt hm)
  · rw [if_neg hm]
    norm_num

/-- Witness for c6_single_theme_bounded: one matched theme with stat 1
yields a theme component inside the unit interval. -/
theorem c6_single_theme_bounded_witness :
    (∀ q ∈ ([("email", (1 : ℚ))] : List (String × ℚ)), 0 ≤ q.2) ∧
    0 ≤ calculate_theme_score ["email"] [("email", 1)] ∧
    calculate_theme_score ["email"] [("email", 1)] ≤ 1 :=
  ⟨by norm_num, (c6_single_theme_bounded [("email", 1)] "email" (by norm_num)).1,
    (c6_single_theme_bounded [("email", 1)] "email" (by norm_num)).2⟩

/-- C7: counterexample: a theme with two occurrence records (one ticket,
one feedback record) over a corpus of one ticket and one feedback record
gets stat 2 = 2/1: the denominator is the ticket count alone, not the
corpus size 2 the claim demands (which would give 2/2 = 1, and 2 is not
1); and with zero tickets but a theme entry present the computation raises
ZeroDivisionError instead of being total. -/
theorem c7_frequency_denominator_and_zero_division :
    calculate_theme_frequency 1 [("email", ⟨["t1", "f1"], [1 / 2]⟩)] =
      Except.ok [("email", 2)] ∧
    (2 : ℚ) ≠ 2 / 2 ∧
    calculate_theme_frequency 0 [("email", ⟨["f1"], [1 / 2]⟩)] =
      Except.error "ZeroDivisionError" := by
  refine ⟨?_, by norm_num, ?_⟩ <;> norm_num [calculate_theme_frequency]

/-- C7 amended: each theme stat divides the occurrence count by the number
of ticket records only (feedback records are not in the denominator),
weighting net-negative sentiment by 2, and the computation raises
ZeroDivisionError exactly when there are zero ticket records and at least
one theme entry, instead of defining the frequency as 0. -/
theorem c7_theme_frequency_characterization (n : ℕ)
    (themes : List (String × ThemeData)) :
    (calculate_theme_frequency n themes = Except.error "ZeroDivisionError" ↔
      n = 0 ∧ themes ≠ []) ∧
    calculate_theme_frequency (n + 1) themes = Except.ok (themes.map (fun td =>
      (td.1, (td.2.occurrences.length : ℚ) / ((n + 1 : ℕ) : ℚ) *
        (if td.2.sentiments.sum < 0 then 2 else 1)))) := by
  constructor
  · rw [calculate_theme_frequency]
    split_ifs with hc
    · simp [hc]
    · simp [hc]
  · rw [calculate_theme_frequency, if_neg (by simp)]

/-- C10: TextAnalyzer defines the private _extract_themes but no attribute
extract_themes, so the lookup made by _calculate_theme_score fails and
every invocation raises AttributeError instead of returning a score. -/
theorem c10_extract_themes_missing :
    text_analyzer_methods.contains "extract_themes" = false ∧
    text_analyzer_methods.contains "_extract_themes" = true ∧
    ∀ item_text stats, calculate_theme_score_run item_text stats =
      Except.error "AttributeError" := by
  exact ⟨by decide, by decide, fun item_text stats => rfl⟩

end Dreyfus
